import Mathlib

/-!
Verification of the merchant/connector administration layer
(`crates/router/src/core/admin.rs`) of a payment-orchestration platform.

Rust strings are modelled as `List Char` (all strings inspected by the
validators are ASCII, so `str::len` agrees with the character count).
Fallible Rust functions return `Except ApiErrorResponse α`; functions that
may additionally abort (debug-build arithmetic overflow) return `RunResult α`.
-/

namespace AdminCore

/-- Modelled from the spec: connector-account status enumeration
(`common_enums::ConnectorStatus`), declared outside the sources at hand.
The spec names the variants `Active | Inactive`. -/
inductive ConnectorStatus where
  | Active
  | Inactive
deriving DecidableEq, Repr

/-- Modelled from the spec: the connector auth-credential tagged union
(`hyperswitch_domain_models::router_data::ConnectorAuthType`), declared outside
the sources at hand; the variant list follows spec 4.1 and the exhaustive
matches in `admin.rs`. Secret string fields are modelled as `List Char`. -/
inductive ConnectorAuthType where
  | TemporaryAuth
  | HeaderKey (api_key : List Char)
  | BodyKey (api_key key1 : List Char)
  | SignatureKey (api_key key1 api_secret : List Char)
  | MultiAuthKey (api_key key1 api_secret key2 : List Char)
  | CurrencyAuthKey (auth_key_map : List (List Char × List Char))
  | CertificateAuth (certificate private_key : List Char)
  | NoKey
deriving DecidableEq, Repr

/-- Modelled from the spec: connector-type enumeration
(`api_enums::ConnectorType`); the spec (§3) lists
`PaymentProcessor | PaymentMethodAuth | AuthenticationProcessor |
FraudRiskManagement | ...`. -/
inductive ConnectorType where
  | PaymentProcessor
  | PaymentMethodAuth
  | AuthenticationProcessor
  | FraudRiskManagement
  | PayoutProcessor
deriving DecidableEq, Repr

/-- The error taxonomy of `errors::ApiErrorResponse` restricted to the
constructors used by the embedded functions. -/
inductive ApiErrorResponse where
  | InvalidRequestData (message : String)
  | InvalidDataFormat (field_name expected_format : String)
  | InvalidConnectorConfiguration (config : String)
  | MerchantAccountNotFound
  | BusinessProfileNotFound (id : String)
  | MerchantConnectorAccountNotFound (id : String)
  | GenericNotFoundError (message : String)
  | GenericDuplicateError (message : String)
  | DuplicateMerchantConnectorAccount (profile_id connector_label : String)
  | MissingRequiredField (field_name : String)
  | AccessForbidden (resource : String)
  | InternalServerError
deriving DecidableEq, Repr

/-- Outcome of running a fallible Rust function: a normal return, a returned
error, or an abort (`panicked`), the latter modelling the debug-build abort on
`usize` subtraction overflow. -/
inductive RunResult (α : Type) where
  | ok (value : α)
  | err (e : ApiErrorResponse)
  | panicked
deriving DecidableEq, Repr

/-- Whether a run ended in a normal return. -/
def RunResult.isOk {α : Type} : RunResult α → Bool
  | .ok _ => true
  | _ => false

/-- `self.auth` matched against `TemporaryAuth` in `validate_status_and_disabled`. -/
def ConnectorAuthType.isTemporaryAuth : ConnectorAuthType → Bool
  | .TemporaryAuth => true
  | _ => false

/-- `ConnectorStatusAndDisabledValidation::validate_status_and_disabled`
(`admin.rs` lines 1644-1679), translated match arm by match arm. -/
def validate_status_and_disabled (status : Option ConnectorStatus)
    (disabled : Option Bool) (auth : ConnectorAuthType)
    (current_status : ConnectorStatus) :
    Except ApiErrorResponse (ConnectorStatus × Option Bool) :=
  let connector_status : Except ApiErrorResponse ConnectorStatus :=
    match status, auth with
    | some .Active, .TemporaryAuth =>
        .error (.InvalidRequestData
          "Connector status cannot be active when using TemporaryAuth")
    | some s, _ => .ok s
    | none, .TemporaryAuth => .ok .Inactive
    | none, _ => .ok current_status
  match connector_status with
  | .error e => .error e
  | .ok connector_status =>
    let disabled_result : Except ApiErrorResponse (Option Bool) :=
      match disabled, connector_status with
      | some false, .Inactive =>
          .error (.InvalidRequestData
            "Connector cannot be enabled when connector_status is inactive or when using TemporaryAuth")
      | some d, _ => .ok (some d)
      | none, .Inactive => .ok (some true)
      | none, _ => .ok none
    match disabled_result with
    | .error e => .error e
    | .ok disabled => .ok (connector_status, disabled)

/-- Restatement of the ordered rules of spec §4.2 (`ConnectorStatusResolver`),
written from the spec's words, to be compared with
`validate_status_and_disabled`:
1. requested Active with TemporaryAuth rejects; 2. else a requested status is
used; 3. else TemporaryAuth resolves to Inactive; 4. else the current status is
kept; 5. requested disabled = false with resolved Inactive rejects; 6. else a
requested disabled is used; 7. else resolved Inactive defaults disabled to
true; 8. else disabled is left unset. -/
def statusResolverSpec (status : Option ConnectorStatus) (disabled : Option Bool)
    (auth : ConnectorAuthType) (current_status : ConnectorStatus) :
    Except ApiErrorResponse (ConnectorStatus × Option Bool) :=
  if status = some .Active ∧ auth = .TemporaryAuth then
    .error (.InvalidRequestData
      "Connector status cannot be active when using TemporaryAuth")
  else
    let resolved : ConnectorStatus :=
      match status with
      | some s => s
      | none => if auth = .TemporaryAuth then .Inactive else current_status
    if disabled = some false ∧ resolved = .Inactive then
      .error (.InvalidRequestData
        "Connector cannot be enabled when connector_status is inactive or when using TemporaryAuth")
    else
      match disabled with
      | some d => .ok (resolved, some d)
      | none =>
        if resolved = .Inactive then .ok (resolved, some true)
        else .ok (resolved, none)

/-- Modelled from the spec: the open-banking account-data union
(`types::MerchantAccountData`), declared outside the sources at hand; the
field sets follow spec §4.3 and the matches in `admin.rs`
(`Iban { iban, name, connector_recipient_id }`,
`Bacs { account_number, sort_code, name, connector_recipient_id }`). -/
inductive MerchantAccountData where
  | Iban (iban : List Char) (name : List Char)
      (connector_recipient_id : Option (List Char))
  | Bacs (account_number sort_code : List Char) (name : List Char)
      (connector_recipient_id : Option (List Char))
deriving DecidableEq, Repr

def IBAN_MAX_LENGTH : Nat := 34
def BACS_SORT_CODE_LENGTH : Nat := 6
def BACS_MAX_ACCOUNT_NUMBER_LENGTH : Nat := 8

/-- Rust `char::is_ascii_uppercase` (code-point range `'A'..='Z'`). -/
def is_ascii_uppercase (c : Char) : Bool :=
  'A'.toNat ≤ c.toNat && c.toNat ≤ 'Z'.toNat

/-- Rust `char::is_ascii_digit` / the `0-9` part of the regex class
(code-point range `'0'..='9'`). -/
def is_ascii_digit (c : Char) : Bool :=
  '0'.toNat ≤ c.toNat && c.toNat ≤ '9'.toNat

/-- One character of the regex class `[A-Z0-9]`; the regex `^[A-Z0-9]*$`
matches a string iff every character is in this class. -/
def iban_char_ok (c : Char) : Bool := is_ascii_uppercase c || is_ascii_digit c

/-- The loop body of the MOD-97 conversion (`admin.rs` lines 4354-4361): an
ASCII uppercase letter is pushed as the two decimal digits of
`(c - 'A') + 10` (the `{:02}` format), any other character is pushed
unchanged. -/
def expand_char (c : Char) : List Char :=
  if is_ascii_uppercase c then
    let digit := (c.toNat - 'A'.toNat) + 10
    [Char.ofNat ('0'.toNat + digit / 10), Char.ofNat ('0'.toNat + digit % 10)]
  else [c]

/-- The full `for_each` push loop producing `result` from `rearranged_iban`. -/
def convert_chars : List Char → List Char
  | [] => []
  | c :: cs => expand_char c ++ convert_chars cs

/-- Decimal value of an ASCII digit character. -/
def digit_val (c : Char) : Nat := c.toNat - '0'.toNat

/-- Value of a decimal digit string. -/
def digits_to_nat (l : List Char) : Nat :=
  l.foldl (fun acc c => acc * 10 + digit_val c) 0

/-- Rust `str::parse::<u128>()` on a sign-free input: succeeds iff the string
is non-empty, consists of ASCII digits only, and its value fits in 128 bits. -/
def parse_u128 (l : List Char) : Option Nat :=
  if l = [] then none
  else if l.all is_ascii_digit then
    if digits_to_nat l < 2 ^ 128 then some (digits_to_nat l) else none
  else none

/-- `validate_bank_account_data` (`admin.rs` lines 4315-4394), translated
check by check. The Rust `len - 4` is a `usize` subtraction: when
`len < 4` it overflows, which aborts under debug assertions; this is the
`.panicked` branch. -/
def validate_bank_account_data : MerchantAccountData → RunResult Unit
  | .Iban iban _ _ =>
    if iban.length > IBAN_MAX_LENGTH then
      .err (.InvalidRequestData "IBAN length must be up to 34 characters")
    else if !iban.all iban_char_ok then
      .err (.InvalidRequestData "IBAN data must be alphanumeric")
    else
      let first_4 := iban.take 4
      let iban_extended := iban ++ first_4
      let len := iban_extended.length
      if len < 4 then .panicked
      else
        let rearranged_iban := (iban_extended.reverse.take (len - 4)).reverse
        let result := convert_chars rearranged_iban
        match parse_u128 result with
        | none => .err .InternalServerError
        | some num =>
          if num % 97 ≠ 1 then .err (.InvalidRequestData "Invalid IBAN")
          else .ok ()
  | .Bacs account_number sort_code _ _ =>
    if account_number.length > BACS_MAX_ACCOUNT_NUMBER_LENGTH
        ∨ sort_code.length ≠ BACS_SORT_CODE_LENGTH then
      .err (.InvalidRequestData "Invalid BACS numbers")
    else .ok ()

/-- Written from the spec's words (§4.4), to be compared with
`validate_bank_account_data`: an IBAN is accepted iff it is at most 34
characters, all characters are uppercase alphanumerics, and the MOD-97 check
holds, where the check rotates the first four characters to the end, expands
letters to their two-digit values by concatenation, reads the digit string as
an arbitrary-precision integer and requires the value mod 97 to equal 1. -/
def iban_spec_accepts (iban : List Char) : Bool :=
  iban.length ≤ 34 &&
  iban.all iban_char_ok &&
  digits_to_nat (convert_chars (iban.drop 4 ++ iban.take 4)) % 97 = 1

/-- Modelled from the spec: the routable-connector identity
(`api_enums::RoutableConnectors`), a closed enumeration declared outside the
sources at hand; only its decidable equality matters here, so it is modelled
as a wrapped name. -/
structure RoutableConnectors where
  name : String
deriving DecidableEq, Repr

/-- `routing_types::RoutableChoiceKind`. -/
inductive RoutableChoiceKind where
  | OnlyConnector
  | FullStruct
deriving DecidableEq, Repr

/-- `routing_types::RoutableConnectorChoice`: an entry of a routing list.
Equality (the Rust `contains` check) is full structural equality. -/
structure RoutableConnectorChoice where
  choice_kind : RoutableChoiceKind
  connector : RoutableConnectors
  merchant_connector_id : Option String
deriving DecidableEq, Repr

/-- `api_enums::TransactionType`. -/
inductive TransactionType where
  | Payment
  | Payout
deriving DecidableEq, Repr

/-- Modelled from the spec: the arbitrary-key config blob store holding the
default routing lists, keyed by a merchant id or a profile id together with
the transaction type (spec §3 DefaultRoutingConfig, §6 Storage). -/
structure ConfigStore where
  configs : String → TransactionType → List RoutableConnectorChoice

/-- Modelled from the spec:
`routing_helpers::update_merchant_default_config(store, key, list, txn)`
(declared outside the sources at hand) persists `list` as the default routing
config stored under `key` for transaction type `txn`. -/
def persist_default_config (store : ConfigStore) (key : String)
    (txn : TransactionType) (list : List RoutableConnectorChoice) : ConfigStore :=
  ⟨fun k t => if k = key ∧ t = txn then list else store.configs k t⟩

/-- `MerchantDefaultConfigUpdate::update_merchant_default_config`
(`admin.rs` lines 1887-1919): builds the FullStruct choice, appends it to the
merchant-level list and persists when absent, then independently to the
profile-level list. Besides the updated store it returns whether each of the
two persists was performed. -/
def update_merchant_default_config (routable_connector : Option RoutableConnectors)
    (merchant_connector_id : String) (merchant_id : String)
    (default_routing_config default_routing_config_for_profile : List RoutableConnectorChoice)
    (profile_id : String) (transaction_type : TransactionType)
    (store : ConfigStore) : ConfigStore × Bool × Bool :=
  match routable_connector with
  | none => (store, false, false)
  | some routable_connector_val =>
    let choice : RoutableConnectorChoice :=
      { choice_kind := .FullStruct
        connector := routable_connector_val
        merchant_connector_id := some merchant_connector_id }
    let (store, persisted_merchant) :=
      if choice ∈ default_routing_config then (store, false)
      else
        (persist_default_config store merchant_id transaction_type
          (default_routing_config ++ [choice]), true)
    let (store, persisted_profile) :=
      if choice ∈ default_routing_config_for_profile then (store, false)
      else
        (persist_default_config store profile_id transaction_type
          (default_routing_config_for_profile ++ [choice]), true)
    (store, persisted_merchant, persisted_profile)

/-- Modelled from the spec: the three capability tables of §4.5 — the
payment-method-auth connector table (`api_enums::convert_pm_auth_connector`),
the authentication-connector table
(`api_enums::convert_authentication_connector`), and the general routable
enumeration parse (`RoutableConnectors::from_str`), all declared outside the
sources at hand. Connector names are modelled as strings. -/
structure CapabilityTables where
  pm_auth_connectors : List String
  authentication_connectors : List String
  routable_parse : String → Option RoutableConnectors

/-- `ConnectorTypeAndConnectorName::get_routable_connector`
(`admin.rs` lines 1836-1872), translated branch by branch over abstract
capability tables. -/
def get_routable_connector (tables : CapabilityTables)
    (connector_type : ConnectorType) (connector_name : String) :
    Except ApiErrorResponse (Option RoutableConnectors) :=
  let routable_connector := tables.routable_parse connector_name
  if tables.pm_auth_connectors.contains connector_name then
    if connector_type ≠ .PaymentMethodAuth ∧ connector_type ≠ .PaymentProcessor then
      .error (.InvalidRequestData "Invalid connector type given")
    else .ok routable_connector
  else if tables.authentication_connectors.contains connector_name then
    if connector_type ≠ .AuthenticationProcessor then
      .error (.InvalidRequestData "Invalid connector type given")
    else .ok routable_connector
  else
    match tables.routable_parse connector_name with
    | none => .error (.InvalidRequestData "Invalid connector name given")
    | some routable_connector_option => .ok (some routable_connector_option)

/-- The fields of a stored merchant connector account record that the
embedded operations inspect (`domain::MerchantConnectorAccount`). -/
structure MerchantConnectorAccountRecord where
  merchant_connector_id : String
  merchant_id : String
  profile_id : String
  connector_label : Option (List Char)
deriving DecidableEq, Repr

/-- Modelled from the spec: a deserialized
`api_models::pm_auth::PaymentMethodAuthConfig` (declared outside the sources at
hand) — the list of enabled payment methods, each referencing a merchant
connector account id. -/
structure PaymentMethodAuthConfig where
  enabled_payment_methods : List String
deriving DecidableEq, Repr

/-- Modelled from the spec: an opaque JSON value submitted as
`pm_auth_config`; `serde_json::from_value` either recovers a
`PaymentMethodAuthConfig` or fails. -/
inductive SerdeValue where
  | parsable (config : PaymentMethodAuthConfig)
  | malformed
deriving DecidableEq, Repr

/-- The `for` loop of `PMAuthConfigValidation::validate_pm_auth`
(`admin.rs` lines 1799-1815): each referenced account id must resolve among
the merchant's connector accounts and belong to `profile_id`. -/
def check_enabled_payment_methods (choices : List String)
    (all_mcas : List MerchantConnectorAccountRecord) (profile_id : String) :
    Except ApiErrorResponse Unit :=
  match choices with
  | [] => .ok ()
  | mca_id :: rest =>
    match all_mcas.find? (fun mca => mca.merchant_connector_id = mca_id) with
    | none =>
        .error (.GenericNotFoundError
          "payment method auth connector account not found")
    | some pm_auth_mca =>
      if pm_auth_mca.profile_id ≠ profile_id then
        .error (.GenericNotFoundError
          "payment method auth profile_id differs from connector profile_id")
      else check_enabled_payment_methods rest all_mcas profile_id

/-- `PMAuthConfigValidation::validate_pm_auth` (`admin.rs` lines 1777-1818):
deserialize the config, then cross-check every referenced account id. The
merchant's account list (the db read) is passed in directly. -/
def validate_pm_auth (val : SerdeValue)
    (all_mcas : List MerchantConnectorAccountRecord) (profile_id : String) :
    Except ApiErrorResponse Unit :=
  match val with
  | .malformed =>
      .error (.InvalidRequestData
        "invalid data received for payment method auth config")
  | .parsable config =>
      check_enabled_payment_methods config.enabled_payment_methods all_mcas
        profile_id

/-- `PMAuthConfigValidation::validate_pm_auth_config`
(`admin.rs` lines 1820-1827): the cross-check runs only when the connector
type is not `PaymentMethodAuth` and a config value is present. -/
def validate_pm_auth_config (connector_type : ConnectorType)
    (pm_auth_config : Option SerdeValue)
    (all_mcas : List MerchantConnectorAccountRecord) (profile_id : String) :
    Except ApiErrorResponse Unit :=
  if connector_type ≠ .PaymentMethodAuth then
    match pm_auth_config with
    | some val => validate_pm_auth val all_mcas profile_id
    | none => .ok ()
  else .ok ()

/-- The fields of a stored business profile record that the embedded
operations inspect (`domain::BusinessProfile`). Profile names are `List Char`
like every other Rust string here. -/
structure BusinessProfileRecord where
  profile_id : String
  merchant_id : String
  profile_name : List Char
deriving DecidableEq, Repr

/-- Modelled from the spec: the persistent store reached through the defined
storage interfaces (spec §6) — key-store and merchant-account existence,
business-profile records (unique `(merchant_id, profile_name)`),
merchant-connector-account records (unique `(profile_id, connector_label)`),
the routing-config blob store, a per-merchant `modified_at` counter
(incremented by `MerchantAccountUpdate::ModifiedAtUpdate`), and the counter
feeding generated profile ids. -/
structure Store where
  key_store_merchants : List String
  merchant_ids : List String
  merchant_modified_at : String → Nat
  business_profiles : List BusinessProfileRecord
  mcas : List MerchantConnectorAccountRecord
  routing_configs : ConfigStore
  profile_id_counter : Nat

/-- The merchant's connector-account list as returned by
`find_merchant_connector_account_by_merchant_id_and_disabled_list`. -/
def Store.mcas_of_merchant (st : Store) (merchant_id : String) :
    List MerchantConnectorAccountRecord :=
  st.mcas.filter (fun mca => mca.merchant_id = merchant_id)

/-- `api::MerchantConnectorDeleteResponse`. -/
structure MerchantConnectorDeleteResponse where
  merchant_id : String
  merchant_connector_id : String
  deleted : Bool
deriving DecidableEq, Repr

/-- `delete_connector` (`admin.rs` lines 3012-3061): key-store fetch, merchant
fetch, connector-account fetch, then deletion of that single record. -/
def delete_connector (merchant_id merchant_connector_id : String) (st : Store) :
    Store × Except ApiErrorResponse MerchantConnectorDeleteResponse :=
  if merchant_id ∈ st.key_store_merchants then
    if merchant_id ∈ st.merchant_ids then
      match st.mcas.find? (fun mca =>
          mca.merchant_id = merchant_id ∧
          mca.merchant_connector_id = merchant_connector_id) with
      | none => (st, .error (.MerchantConnectorAccountNotFound merchant_connector_id))
      | some _ =>
        let st := { st with
          mcas := st.mcas.filter (fun mca =>
            ¬(mca.merchant_id = merchant_id ∧
              mca.merchant_connector_id = merchant_connector_id)) }
        (st, .ok ⟨merchant_id, merchant_connector_id, true⟩)
    else (st, .error .MerchantAccountNotFound)
  else (st, .error .MerchantAccountNotFound)

/-- Results of the external collaborators consulted by `create_connector`,
in call order. Each models one awaited call whose internals are outside this
core (deployment-tier name check, Apple-Pay certificate metadata parse,
legacy business-details check, profile resolution from the request,
payment-methods-enabled serialization, auth-payload parse, the per-connector
auth/metadata dispatch, recipient creation, and the final
serialization/encryption steps of the record build, collapsed into one). -/
structure CreateConnectorExternals where
  dummy_connector_check : Except ApiErrorResponse Unit
  apple_pay_metadata_check : Except ApiErrorResponse Unit
  business_details_check : Except ApiErrorResponse Unit
  profile_id_resolution : Except ApiErrorResponse String
  payment_methods_encode : Except ApiErrorResponse Unit
  auth_parse : Except ApiErrorResponse ConnectorAuthType
  auth_and_metadata_check : Except ApiErrorResponse Unit
  recipient_create : Except ApiErrorResponse (List Char)
  record_build_finalize : Except ApiErrorResponse Unit

/-- `process_open_banking_connectors` (`admin.rs` lines 4232-4313) for the
`AccountData` recipient kind: connector-type gate, bank-account validation,
then recipient creation (locker or connector call) whose id is merged back
into the account-data variant. -/
def process_open_banking_connectors (ext : CreateConnectorExternals)
    (connector_type : ConnectorType) (merchant_data : MerchantAccountData) :
    RunResult MerchantAccountData :=
  if connector_type ≠ ConnectorType.PaymentProcessor then
    .err (.InvalidConnectorConfiguration
      "OpenBanking connector for Payment Initiation should be a payment processor")
  else
    match validate_bank_account_data merchant_data with
    | .panicked => .panicked
    | .err e => .err e
    | .ok _ =>
      match ext.recipient_create with
      | .error e => .err e
      | .ok recipient_id =>
        match merchant_data with
        | .Iban iban name _ => .ok (.Iban iban name (some recipient_id))
        | .Bacs account_number sort_code name _ =>
            .ok (.Bacs account_number sort_code name (some recipient_id))

/-- The connector-account create request
(`api::MerchantConnectorCreate`), restricted to the fields the embedded flow
inspects. `additional_merchant_data` carries the open-banking account data
when present; `transaction_type` stands for `req.get_transaction_type()`. -/
structure MerchantConnectorCreate where
  connector_type : ConnectorType
  connector_name : String
  connector_label : Option (List Char)
  status : Option ConnectorStatus
  disabled : Option Bool
  pm_auth_config : Option SerdeValue
  additional_merchant_data : Option MerchantAccountData
  transaction_type : TransactionType

/-- `MerchantConnectorCreateBridge::create_domain_model_from_request`
(`admin.rs` lines 2394-2531): label generation, payment-methods encoding,
auth parse, per-connector auth/metadata validation, status/disabled
validation (with current status `Active`), open-banking recipient
resolution, then the encrypted record build. -/
def create_domain_model_from_request (ext : CreateConnectorExternals)
    (req : MerchantConnectorCreate) (business_profile : BusinessProfileRecord)
    (fresh_mca_id : String) : RunResult MerchantConnectorAccountRecord :=
  let connector_label :=
    req.connector_label.getD
      (req.connector_name.toList ++ '_' :: business_profile.profile_name)
  match ext.payment_methods_encode with
  | .error e => .err e
  | .ok _ =>
  match ext.auth_parse with
  | .error e => .err e
  | .ok auth =>
  match ext.auth_and_metadata_check with
  | .error e => .err e
  | .ok _ =>
  match validate_status_and_disabled req.status req.disabled auth .Active with
  | .error e => .err e
  | .ok _ =>
  let recipient_step : RunResult Unit :=
    match req.additional_merchant_data with
    | some merchant_data =>
      match process_open_banking_connectors ext req.connector_type merchant_data with
      | .panicked => .panicked
      | .err e => .err e
      | .ok _ => .ok ()
    | none => .ok ()
  match recipient_step with
  | .panicked => .panicked
  | .err e => .err e
  | .ok _ =>
  match ext.record_build_finalize with
  | .error e => .err e
  | .ok _ =>
    .ok { merchant_connector_id := fresh_mca_id
          merchant_id := business_profile.merchant_id
          profile_id := business_profile.profile_id
          connector_label := some connector_label }

/-- Modelled from the spec: `insert_merchant_connector_account` (storage
collaborator) — inserts the record, reporting a duplicate-key conflict on the
`(profile id, connector label)` uniqueness constraint (spec §5), which the
caller maps to `DuplicateMerchantConnectorAccount`. -/
def insert_merchant_connector_account (st : Store)
    (record : MerchantConnectorAccountRecord) :
    Except ApiErrorResponse Store :=
  if st.mcas.any (fun mca =>
      mca.profile_id = record.profile_id ∧
      mca.connector_label = record.connector_label) then
    .error (.DuplicateMerchantConnectorAccount record.profile_id
      (String.mk (record.connector_label.getD [])))
  else .ok { st with mcas := st.mcas ++ [record] }

/-- `create_connector` (`admin.rs` lines 2584-2750), the create-path
orchestration in source order: dummy-connector gate, key store, Apple-Pay
metadata validation, merchant account, business-details validation, profile
resolution, pm-auth-config validation, business-profile fetch, routable
classification, the merchant `modified_at` touch (the first write), the
domain-record build (auth/status/bank validations), the routing-config
reads, the record insert, and the default-routing-config update. -/
def create_connector (tables : CapabilityTables) (ext : CreateConnectorExternals)
    (req : MerchantConnectorCreate) (merchant_id : String)
    (fresh_mca_id : String) (st : Store) :
    Store × RunResult MerchantConnectorAccountRecord :=
  match ext.dummy_connector_check with
  | .error e => (st, .err e)
  | .ok _ =>
  if merchant_id ∈ st.key_store_merchants then
    match ext.apple_pay_metadata_check with
    | .error e => (st, .err e)
    | .ok _ =>
    if merchant_id ∈ st.merchant_ids then
      match ext.business_details_check with
      | .error e => (st, .err e)
      | .ok _ =>
      match ext.profile_id_resolution with
      | .error e => (st, .err e)
      | .ok profile_id =>
      match validate_pm_auth_config req.connector_type req.pm_auth_config
          (st.mcas_of_merchant merchant_id) profile_id with
      | .error e => (st, .err e)
      | .ok _ =>
      match st.business_profiles.find? (fun p => p.profile_id = profile_id) with
      | none => (st, .err (.BusinessProfileNotFound profile_id))
      | some business_profile =>
      match get_routable_connector tables req.connector_type req.connector_name with
      | .error e => (st, .err e)
      | .ok routable_connector =>
      -- the merchant account update driving KGraph cache invalidation
      let st := { st with
        merchant_modified_at := fun m =>
          if m = merchant_id then st.merchant_modified_at m + 1
          else st.merchant_modified_at m }
      match create_domain_model_from_request ext req business_profile fresh_mca_id with
      | .panicked => (st, .panicked)
      | .err e => (st, .err e)
      | .ok merchant_connector_account =>
      let default_routing_config :=
        st.routing_configs.configs merchant_id req.transaction_type
      let default_routing_config_for_profile :=
        st.routing_configs.configs profile_id req.transaction_type
      match insert_merchant_connector_account st merchant_connector_account with
      | .error e => (st, .err e)
      | .ok st2 =>
      let updated :=
        update_merchant_default_config routable_connector
          merchant_connector_account.merchant_connector_id merchant_id
          default_routing_config default_routing_config_for_profile profile_id
          req.transaction_type st2.routing_configs
      ({ st2 with routing_configs := updated.1 }, .ok merchant_connector_account)
    else (st, .err .MerchantAccountNotFound)
  else (st, .err .MerchantAccountNotFound)

/-- Modelled from the spec: a legacy primary-business-details entry
(`admin_types::PrimaryBusinessDetails`, declared outside the sources at
hand): an alpha-2 country code (two uppercase letters, displayed as such)
and a business label. -/
structure PrimaryBusinessDetails where
  country : Char × Char
  business : List Char
deriving DecidableEq, Repr

/-- The profile name `format!("{}_{}", country, business)` built at
`admin.rs` lines 594-595. -/
def profile_name_of_business_details (pbd : PrimaryBusinessDetails) : List Char :=
  pbd.country.1 :: pbd.country.2 :: '_' :: pbd.business

/-- The business-profile create request (`api::BusinessProfileCreate`),
restricted to the profile name; `BusinessProfileCreate::default()` carries
`profile_name = None`. -/
structure BusinessProfileCreate where
  profile_name : Option (List Char)
deriving DecidableEq, Repr

/-- `create_and_insert_business_profile` (`admin.rs` lines 3277-3303)
composed with the name defaulting of
`BusinessProfileCreate::create_domain_model_from_request`
(`admin.rs` line 3363: `self.profile_name.unwrap_or("default")`) and the
generated profile id; the storage insert reports a conflict on the
`(merchant_id, profile_name)` uniqueness invariant (spec §3). -/
def create_and_insert_business_profile (request : BusinessProfileCreate)
    (merchant_id : String) (st : Store) :
    Store × Except ApiErrorResponse BusinessProfileRecord :=
  let profile_id := "pro_" ++ toString st.profile_id_counter
  let profile_name := request.profile_name.getD "default".toList
  let record : BusinessProfileRecord := ⟨profile_id, merchant_id, profile_name⟩
  let st := { st with profile_id_counter := st.profile_id_counter + 1 }
  if st.business_profiles.any (fun p =>
      p.merchant_id = merchant_id ∧ p.profile_name = profile_name) then
    (st, .error (.GenericDuplicateError
      "Business Profile with the profile_name already exists"))
  else
    ({ st with business_profiles := st.business_profiles ++ [record] }, .ok record)

/-- `CreateBusinessProfile` (`admin.rs` lines 494-502). -/
inductive CreateBusinessProfile where
  | CreateFromPrimaryBusinessDetails
      (primary_business_details : List PrimaryBusinessDetails)
  | CreateDefaultBusinessProfile

/-- `CreateBusinessProfile::new` (`admin.rs` lines 513-522): non-empty
primary business details select the batch path, anything else the default
path. -/
def CreateBusinessProfile.new :
    Option (List PrimaryBusinessDetails) → CreateBusinessProfile
  | some primary_business_details =>
    if primary_business_details ≠ [] then
      .CreateFromPrimaryBusinessDetails primary_business_details
    else .CreateDefaultBusinessProfile
  | none => .CreateDefaultBusinessProfile

/-- `CreateBusinessProfile::create_business_profiles_for_each_business_details`
(`admin.rs` lines 582-619): one insert attempt per entry, duplicate failures
logged and skipped, successes collected in order. -/
def create_business_profiles_for_each_business_details (merchant_id : String) :
    List PrimaryBusinessDetails → Store → Store × List BusinessProfileRecord
  | [], st => (st, [])
  | pbd :: rest, st =>
    let request : BusinessProfileCreate :=
      ⟨some (profile_name_of_business_details pbd)⟩
    match create_and_insert_business_profile request merchant_id st with
    | (st, .ok record) =>
      let (st, vec) :=
        create_business_profiles_for_each_business_details merchant_id rest st
      (st, record :: vec)
    | (st, .error _) =>
      create_business_profiles_for_each_business_details merchant_id rest st

/-- `CreateBusinessProfile::create_business_profiles`
(`admin.rs` lines 524-559) acting on the in-memory merchant account's
`default_profile` field (initially `None` at merchant creation,
`admin.rs` line 401): the batch path sets it only when exactly one profile
resulted; the default path creates the `"default"`-named profile and always
sets it. Returns the updated store and the resulting `default_profile`. -/
def create_business_profiles (action : CreateBusinessProfile)
    (merchant_id : String) (default_profile : Option String) (st : Store) :
    Store × Except ApiErrorResponse (Option String) :=
  match action with
  | .CreateFromPrimaryBusinessDetails primary_business_details =>
    let (st, business_profiles) :=
      create_business_profiles_for_each_business_details merchant_id
        primary_business_details st
    if business_profiles.length = 1 then
      (st, .ok (business_profiles.head?.map (fun p => p.profile_id)))
    else (st, .ok default_profile)
  | .CreateDefaultBusinessProfile =>
    match create_and_insert_business_profile ⟨none⟩ merchant_id st with
    | (st, .error e) => (st, .error e)
    | (st, .ok business_profile) => (st, .ok (some business_profile.profile_id))

/-! ## Theorems -/

/-- C1: `validate_status_and_disabled` implements exactly the ordered rules of
spec §4.2: rejection of a requested Active status with TemporaryAuth, status
resolution (requested status, else Inactive under TemporaryAuth, else the
current status), rejection of requested disabled = false with resolved
Inactive, and the disabled override (requested value, else Some true when
resolved Inactive, else None, preserving the prior stored value). It is a pure
function of its four inputs. -/
theorem c1_validate_status_and_disabled_implements_spec_rules
    (status : Option ConnectorStatus) (disabled : Option Bool)
    (auth : ConnectorAuthType) (current_status : ConnectorStatus) :
    validate_status_and_disabled status disabled auth current_status =
      statusResolverSpec status disabled auth current_status := by
  rcases status with _ | s <;>
    rcases auth <;>
      rcases disabled with _ | d <;>
        first
          | rfl
          | (rcases s <;> rcases current_status <;> first | rfl | (rcases d <;> rfl))
          | (rcases current_status <;> first | rfl | (rcases d <;> rfl))

/-- C9: `validate_pm_auth_config` performs no validation at all when the
connector type is `PaymentMethodAuth` — it succeeds for every config value,
including one referencing nonexistent or foreign-profile account ids — and
for every other connector type it runs the full cross-check on the config
value when one is present. -/
theorem c9_validate_pm_auth_config_skips_payment_method_auth
    (connector_type : ConnectorType) (pm_auth_config : Option SerdeValue)
    (all_mcas : List MerchantConnectorAccountRecord) (profile_id : String) :
    (connector_type = .PaymentMethodAuth →
      validate_pm_auth_config connector_type pm_auth_config all_mcas profile_id =
        .ok ()) ∧
    (connector_type ≠ .PaymentMethodAuth →
      validate_pm_auth_config connector_type pm_auth_config all_mcas profile_id =
        match pm_auth_config with
        | some val => validate_pm_auth val all_mcas profile_id
        | none => .ok ()) := by
  constructor
  · intro h
    subst h
    simp [validate_pm_auth_config]
  · intro h
    simp [validate_pm_auth_config, h]

/-- C9 witness: a `PaymentMethodAuth` create request whose pm-auth config
references an account id that exists nowhere passes the validation. -/
theorem c9_witness :
    validate_pm_auth_config .PaymentMethodAuth
      (some (.parsable ⟨["mca_does_not_exist"]⟩)) [] "profile_1" = .ok () :=
  (c9_validate_pm_auth_config_skips_payment_method_auth .PaymentMethodAuth
    (some (.parsable ⟨["mca_does_not_exist"]⟩)) [] "profile_1").1 rfl

/-- C5: `get_routable_connector` rejects a payment-method-auth-table name
whose connector type is neither `PaymentMethodAuth` nor `PaymentProcessor`,
rejects an authentication-table name whose connector type is not
`AuthenticationProcessor`, otherwise requires the name to parse in the
routable enumeration (rejecting with the invalid-connector-name message),
every successful result is the name's routable parse, and `None` is returned
only when the name sits in one of the two capability tables (with the type
check passed) and has no routable identity. -/
theorem c5_get_routable_connector_classifies
    (tables : CapabilityTables) (connector_type : ConnectorType)
    (connector_name : String) :
    (connector_name ∈ tables.pm_auth_connectors →
      connector_type ≠ .PaymentMethodAuth → connector_type ≠ .PaymentProcessor →
      get_routable_connector tables connector_type connector_name =
        .error (.InvalidRequestData "Invalid connector type given")) ∧
    (connector_name ∉ tables.pm_auth_connectors →
      connector_name ∈ tables.authentication_connectors →
      connector_type ≠ .AuthenticationProcessor →
      get_routable_connector tables connector_type connector_name =
        .error (.InvalidRequestData "Invalid connector type given")) ∧
    (connector_name ∉ tables.pm_auth_connectors →
      connector_name ∉ tables.authentication_connectors →
      get_routable_connector tables connector_type connector_name =
        match tables.routable_parse connector_name with
        | none => .error (.InvalidRequestData "Invalid connector name given")
        | some routable => .ok (some routable)) ∧
    (∀ result,
      get_routable_connector tables connector_type connector_name = .ok result →
      result = tables.routable_parse connector_name) ∧
    (get_routable_connector tables connector_type connector_name = .ok none →
      tables.routable_parse connector_name = none ∧
      (connector_name ∈ tables.pm_auth_connectors ∨
       connector_name ∈ tables.authentication_connectors)) := by
  unfold get_routable_connector
  refine ⟨?_, ?_, ?_, ?_, ?_⟩
  · intro hpm h1 h2
    simp [hpm, h1, h2]
  · intro hpm hauth h1
    simp [hpm, hauth, h1]
  · intro hpm hauth
    simp [hpm, hauth]
  · intro result h
    by_cases hpm : connector_name ∈ tables.pm_auth_connectors
    · rw [if_pos (List.elem_iff.mpr hpm)] at h
      split at h
      · exact absurd h (by simp)
      · exact (Except.ok.inj h).symm
    · rw [if_neg (fun hc => hpm (List.elem_iff.mp hc))] at h
      by_cases hauth : connector_name ∈ tables.authentication_connectors
      · rw [if_pos (List.elem_iff.mpr hauth)] at h
        split at h
        · exact absurd h (by simp)
        · exact (Except.ok.inj h).symm
      · rw [if_neg (fun hc => hauth (List.elem_iff.mp hc))] at h
        rcases hparse : tables.routable_parse connector_name with _ | v
        · rw [hparse] at h
          exact absurd h (by simp)
        · rw [hparse] at h
          exact (Except.ok.inj h).symm
  · intro h
    by_cases hpm : connector_name ∈ tables.pm_auth_connectors
    · rw [if_pos (List.elem_iff.mpr hpm)] at h
      refine ⟨?_, Or.inl hpm⟩
      split at h
      · exact absurd h (by simp)
      · exact Except.ok.inj h
    · rw [if_neg (fun hc => hpm (List.elem_iff.mp hc))] at h
      by_cases hauth : connector_name ∈ tables.authentication_connectors
      · rw [if_pos (List.elem_iff.mpr hauth)] at h
        refine ⟨?_, Or.inr hauth⟩
        split at h
        · exact absurd h (by simp)
        · exact Except.ok.inj h
      · rw [if_neg (fun hc => hauth (List.elem_iff.mp hc))] at h
        rcases hparse : tables.routable_parse connector_name with _ | v
        · rw [hparse] at h
          exact absurd h (by simp)
        · rw [hparse] at h
          exact absurd (Except.ok.inj h) (by simp)

/-- C5 witness: with a name listed in the payment-method-auth table and a
fraud-risk connector type, classification rejects with the invalid-type
message. -/
theorem c5_witness :
    get_routable_connector
      ⟨["plaid"], ["threedsecureio"], fun _ => none⟩
      .FraudRiskManagement "plaid" =
      .error (.InvalidRequestData "Invalid connector type given") :=
  (c5_get_routable_connector_classifies
    ⟨["plaid"], ["threedsecureio"], fun _ => none⟩
    .FraudRiskManagement "plaid").1 (by decide) (by decide) (by decide)

/-- C8: `validate_bank_account_data` accepts a BACS entry exactly when the
account number is at most 8 characters and the sort code exactly 6
characters, and any violation yields the invalid-request-data error naming
the BACS numbers. -/
theorem c8_validate_bacs_lengths
    (account_number sort_code name : List Char) (rid : Option (List Char)) :
    (validate_bank_account_data (.Bacs account_number sort_code name rid) =
        .ok () ↔
      account_number.length ≤ 8 ∧ sort_code.length = 6) ∧
    (¬(account_number.length ≤ 8 ∧ sort_code.length = 6) →
      validate_bank_account_data (.Bacs account_number sort_code name rid) =
        .err (.InvalidRequestData "Invalid BACS numbers")) := by
  simp only [validate_bank_account_data, BACS_MAX_ACCOUNT_NUMBER_LENGTH,
    BACS_SORT_CODE_LENGTH]
  by_cases h : account_number.length > 8 ∨ sort_code.length ≠ 6
  · rw [if_pos h]
    refine ⟨⟨fun hfalse => absurd hfalse (by simp), fun hc => ?_⟩, fun _ => rfl⟩
    exfalso
    rcases hc with ⟨hc1, hc2⟩
    omega
  · rw [if_neg h]
    push_neg at h
    refine ⟨⟨fun _ => ⟨by omega, h.2⟩, fun _ => rfl⟩, fun hc => ?_⟩
    exact absurd ⟨by omega, h.2⟩ hc

/-- A character passing the `[A-Z0-9]` class expands to decimal digits. -/
theorem expand_char_all_digits (c : Char) (h : iban_char_ok c = true) :
    (expand_char c).all is_ascii_digit = true := by
  by_cases hu : is_ascii_uppercase c
  · unfold expand_char
    rw [if_pos hu]
    unfold is_ascii_uppercase at hu
    simp only [Bool.and_eq_true, decide_eq_true_eq] at hu
    obtain ⟨h1, h2⟩ := hu
    have h65 : ('A').toNat = 65 := rfl
    have h90 : ('Z').toNat = 90 := rfl
    rw [h65] at h1
    rw [h90] at h2
    generalize hn : c.toNat = n at h1 h2 ⊢
    interval_cases n <;> decide
  · unfold expand_char
    rw [if_neg hu]
    unfold iban_char_ok at h
    rw [Bool.or_eq_true] at h
    rcases h with h | h
    · exact absurd h hu
    · simp [h]

theorem expand_char_ne_nil (c : Char) : expand_char c ≠ [] := by
  unfold expand_char
  by_cases hu : is_ascii_uppercase c
  · rw [if_pos hu]
    simp
  · rw [if_neg hu]
    simp

theorem convert_chars_all_digits (l : List Char)
    (h : l.all iban_char_ok = true) :
    (convert_chars l).all is_ascii_digit = true := by
  induction l with
  | nil => rfl
  | cons c cs ih =>
    rw [List.all_cons, Bool.and_eq_true] at h
    simp only [convert_chars, List.all_append]
    rw [expand_char_all_digits c h.1, ih h.2]
    rfl

theorem convert_chars_ne_nil (l : List Char) (h : l ≠ []) :
    convert_chars l ≠ [] := by
  cases l with
  | nil => exact absurd rfl h
  | cons c cs =>
    simp only [convert_chars]
    intro hc
    rcases List.append_eq_nil.mp hc with ⟨h1, -⟩
    exact expand_char_ne_nil c h1

/-- Under the length and character-class preconditions the IBAN branch of
`validate_bank_account_data` reduces to the `u128` parse of the rotated,
expanded digit string followed by the MOD-97 test: the reverse-take-reverse
rearrangement of the extended string equals moving the first four characters
to the end. -/
theorem validate_iban_normal_form (iban name : List Char)
    (rid : Option (List Char)) (h4 : 4 ≤ iban.length)
    (h34 : iban.length ≤ 34) (hall : iban.all iban_char_ok = true) :
    validate_bank_account_data (.Iban iban name rid) =
      match parse_u128 (convert_chars (iban.drop 4 ++ iban.take 4)) with
      | none => .err .InternalServerError
      | some num =>
        if num % 97 ≠ 1 then .err (.InvalidRequestData "Invalid IBAN")
        else .ok () := by
  have htake : (iban.take 4).length = 4 := by
    rw [List.length_take]
    omega
  have hextlen : (iban ++ iban.take 4).length = iban.length + 4 := by
    rw [List.length_append, htake]
  have hrearr :
      ((iban ++ iban.take 4).reverse.take ((iban ++ iban.take 4).length - 4)).reverse
        = iban.drop 4 ++ iban.take 4 := by
    rw [← List.rtake_eq_reverse_take_reverse]
    unfold List.rtake
    have hlen4 :
        (iban ++ iban.take 4).length - ((iban ++ iban.take 4).length - 4) = 4 := by
      omega
    rw [hlen4]
    exact List.drop_append_of_le_length h4
  have hnotall : ¬((!iban.all iban_char_ok) = true) := by
    rw [hall]
    simp
  simp only [validate_bank_account_data, IBAN_MAX_LENGTH]
  rw [if_neg (by omega : ¬iban.length > 34), if_neg hnotall,
    if_neg (by omega : ¬(iban ++ iban.take 4).length < 4), hrearr]

/-- C3 (amended): for every input of length at least 4, the IBAN branch
accepts iff the input is at most 34 characters, every character is an
uppercase alphanumeric, and the rotated-and-expanded digit string has a
value below `2 ^ 128` (the `u128` parse bound) whose remainder mod 97 is 1.
Values at or above `2 ^ 128` are rejected even when the
arbitrary-precision MOD-97 check of the spec succeeds. -/
theorem c3_validate_iban_requires_u128_range (iban name : List Char)
    (rid : Option (List Char)) (h4 : 4 ≤ iban.length) :
    validate_bank_account_data (.Iban iban name rid) = .ok () ↔
      (iban.length ≤ 34 ∧ iban.all iban_char_ok = true ∧
       digits_to_nat (convert_chars (iban.drop 4 ++ iban.take 4)) < 2 ^ 128 ∧
       digits_to_nat (convert_chars (iban.drop 4 ++ iban.take 4)) % 97 = 1) := by
  by_cases h34 : iban.length ≤ 34
  · by_cases hall : iban.all iban_char_ok = true
    · rw [validate_iban_normal_form iban name rid h4 h34 hall]
      have hne : convert_chars (iban.drop 4 ++ iban.take 4) ≠ [] := by
        apply convert_chars_ne_nil
        intro hnil
        rcases List.append_eq_nil.mp hnil with ⟨-, h2⟩
        have hlen := congrArg List.length h2
        rw [List.length_take] at hlen
        simp only [List.length_nil] at hlen
        omega
      have hdig :
          (convert_chars (iban.drop 4 ++ iban.take 4)).all is_ascii_digit = true := by
        apply convert_chars_all_digits
        rw [List.all_eq_true]
        intro x hx
        rw [List.all_eq_true] at hall
        rcases List.mem_append.mp hx with hx | hx
        · exact hall x (List.mem_of_mem_drop hx)
        · exact hall x (List.mem_of_mem_take hx)
      have hparse : parse_u128 (convert_chars (iban.drop 4 ++ iban.take 4)) =
          if digits_to_nat (convert_chars (iban.drop 4 ++ iban.take 4)) < 2 ^ 128
          then some (digits_to_nat (convert_chars (iban.drop 4 ++ iban.take 4)))
          else none := by
        unfold parse_u128
        rw [if_neg hne, if_pos hdig]
      by_cases hlt :
          digits_to_nat (convert_chars (iban.drop 4 ++ iban.take 4)) < 2 ^ 128
      · by_cases hmod :
            digits_to_nat (convert_chars (iban.drop 4 ++ iban.take 4)) % 97 = 1
        · refine iff_of_true ?_ ⟨h34, hall, hlt, hmod⟩
          rw [hparse, if_pos hlt]
          simp [hmod]
        · refine iff_of_false ?_ (fun hc => hmod hc.2.2.2)
          rw [hparse, if_pos hlt]
          simp [hmod]
      · refine iff_of_false ?_ (fun hc => hlt hc.2.2.1)
        rw [hparse, if_neg hlt]
        simp
    · refine iff_of_false ?_ (fun hc => hall hc.2.1)
      simp only [validate_bank_account_data, IBAN_MAX_LENGTH]
      rw [if_neg (by omega : ¬iban.length > 34),
        if_pos (by simp [Bool.eq_false_iff.mpr hall])]
      simp
  · refine iff_of_false ?_ (fun hc => h34 hc.1)
    simp only [validate_bank_account_data, IBAN_MAX_LENGTH]
    rw [if_pos (by omega : iban.length > 34)]
    simp

/-- C3 counterexample: the 22-character uppercase input
`"ZZAAAAAAAAAAAAAAAAAA36"` satisfies the spec's arbitrary-precision
acceptance criterion (length, character class, MOD-97 value 1) yet the code
rejects it with an internal error, because its 42-digit expanded string
exceeds the `u128` range used by `parse::<u128>()`. -/
theorem c3_counterexample :
    iban_spec_accepts "ZZAAAAAAAAAAAAAAAAAA36".toList = true ∧
    ¬digits_to_nat
        (convert_chars ("ZZAAAAAAAAAAAAAAAAAA36".toList.drop 4 ++
          "ZZAAAAAAAAAAAAAAAAAA36".toList.take 4)) < 2 ^ 128 ∧
    validate_bank_account_data
        (.Iban "ZZAAAAAAAAAAAAAAAAAA36".toList [] none) =
      .err .InternalServerError := by
  refine ⟨by decide, by decide, by decide⟩

/-- C3 witness: the spec's positive example `"GB82WEST12345698765432"` is
accepted. -/
theorem c3_witness :
    validate_bank_account_data
      (.Iban "GB82WEST12345698765432".toList [] none) = .ok () :=
  (c3_validate_iban_requires_u128_range "GB82WEST12345698765432".toList []
    none (by decide)).mpr (by decide)

/-- C10 counterexample: on the empty IBAN (and on any 1-character IBAN) the
extended string is shorter than 4 characters, so the `usize` subtraction
`len - 4` underflows and the function aborts rather than returning a value. -/
theorem c10_counterexample :
    (([] : List Char) ++ ([] : List Char).take 4).length < 4 ∧
    validate_bank_account_data (.Iban [] [] none) = .panicked ∧
    validate_bank_account_data (.Iban ['A'] [] none) = .panicked := by
  refine ⟨by decide, by decide, by decide⟩

/-- C10 (amended): for every IBAN input of length at least 2 the extended
length is at least 4, so the `len - 4` subtraction does not underflow and
`validate_bank_account_data` returns a value (it never aborts); inputs of
length 0 or 1 do underflow (see the counterexample). -/
theorem c10_no_underflow_for_length_ge_two (iban name : List Char)
    (rid : Option (List Char)) (h2 : 2 ≤ iban.length) :
    4 ≤ (iban ++ iban.take 4).length ∧
    validate_bank_account_data (.Iban iban name rid) ≠ .panicked := by
  have hlen : 4 ≤ (iban ++ iban.take 4).length := by
    rw [List.length_append, List.length_take]
    omega
  refine ⟨hlen, ?_⟩
  simp only [validate_bank_account_data, IBAN_MAX_LENGTH]
  split
  · simp
  · split
    · simp
    · rw [if_neg (by omega : ¬(iban ++ iban.take 4).length < 4)]
      split
      · simp
      · split <;> simp

/-- C10 witness: the 2-character input `"AB"` neither underflows nor aborts
(it is rejected with a returned error). -/
theorem c10_witness :
    4 ≤ ((['A', 'B'] : List Char) ++ (['A', 'B'] : List Char).take 4).length ∧
    validate_bank_account_data (.Iban ['A', 'B'] [] none) ≠ .panicked :=
  c10_no_underflow_for_length_ge_two ['A', 'B'] [] none (by decide)

/-- C8 witness: an 8-digit account number with a 6-digit sort code is
accepted; a 9-character account number is rejected with the invalid-BACS
error. -/
theorem c8_witness :
    validate_bank_account_data
      (.Bacs "12345678".toList "123456".toList [] none) = .ok () ∧
    validate_bank_account_data
      (.Bacs "123456789".toList "123456".toList [] none) =
      .err (.InvalidRequestData "Invalid BACS numbers") :=
  ⟨(c8_validate_bacs_lengths "12345678".toList "123456".toList [] none).1.mpr
      (by decide),
   (c8_validate_bacs_lengths "123456789".toList "123456".toList [] none).2
      (by decide)⟩

/-- Reading back the key just persisted returns the persisted list. -/
theorem persist_get_same (st : ConfigStore) (key : String)
    (txn : TransactionType) (l : List RoutableConnectorChoice) :
    (persist_default_config st key txn l).configs key txn = l := by
  simp [persist_default_config]

/-- Persisting under one key leaves every other key untouched. -/
theorem persist_get_other (st : ConfigStore) (key : String)
    (txn : TransactionType) (l : List RoutableConnectorChoice)
    (k : String) (t : TransactionType) (h : ¬(k = key ∧ t = txn)) :
    (persist_default_config st key txn l).configs k t = st.configs k t := by
  simp [persist_default_config, h]

/-- When the choice is absent from both loaded lists, the update appends it
to both and persists both. -/
theorem update_merchant_default_config_absent (v : RoutableConnectors)
    (mca_id merchant_id profile_id : String) (txn : TransactionType)
    (ml pl : List RoutableConnectorChoice) (st : ConfigStore)
    (hm : ({ choice_kind := .FullStruct, connector := v,
             merchant_connector_id := some mca_id } :
           RoutableConnectorChoice) ∉ ml)
    (hp : ({ choice_kind := .FullStruct, connector := v,
             merchant_connector_id := some mca_id } :
           RoutableConnectorChoice) ∉ pl) :
    update_merchant_default_config (some v) mca_id merchant_id ml pl
        profile_id txn st =
      (persist_default_config
        (persist_default_config st merchant_id txn
          (ml ++ [{ choice_kind := .FullStruct, connector := v,
                    merchant_connector_id := some mca_id }]))
        profile_id txn
        (pl ++ [{ choice_kind := .FullStruct, connector := v,
                  merchant_connector_id := some mca_id }]),
       true, true) := by
  simp only [update_merchant_default_config]
  rw [if_neg hm, if_neg hp]

/-- When the choice is present in both loaded lists, the update performs no
append and no persist at all. -/
theorem update_merchant_default_config_present (v : RoutableConnectors)
    (mca_id merchant_id profile_id : String) (txn : TransactionType)
    (ml pl : List RoutableConnectorChoice) (st : ConfigStore)
    (hm : ({ choice_kind := .FullStruct, connector := v,
             merchant_connector_id := some mca_id } :
           RoutableConnectorChoice) ∈ ml)
    (hp : ({ choice_kind := .FullStruct, connector := v,
             merchant_connector_id := some mca_id } :
           RoutableConnectorChoice) ∈ pl) :
    update_merchant_default_config (some v) mca_id merchant_id ml pl
        profile_id txn st = (st, false, false) := by
  simp only [update_merchant_default_config]
  rw [if_pos hm, if_pos hp]

/-- C4: registering the same routable connector twice (loading the stored
lists before each call, as `create_connector` does) leaves the merchant-level
and profile-level lists each containing exactly one occurrence of the
FullStruct choice: the first call appends and persists on both levels and the
second call finds the choice present under structural equality and performs
no further append or persist. -/
theorem c4_update_merchant_default_config_idempotent
    (v : RoutableConnectors) (mca_id merchant_id profile_id : String)
    (txn : TransactionType) (st0 : ConfigStore)
    (hkey : merchant_id ≠ profile_id)
    (hm : ({ choice_kind := .FullStruct, connector := v,
             merchant_connector_id := some mca_id } :
           RoutableConnectorChoice) ∉ st0.configs merchant_id txn)
    (hp : ({ choice_kind := .FullStruct, connector := v,
             merchant_connector_id := some mca_id } :
           RoutableConnectorChoice) ∉ st0.configs profile_id txn) :
    let choice : RoutableConnectorChoice :=
      { choice_kind := .FullStruct, connector := v,
        merchant_connector_id := some mca_id }
    let st1 := (update_merchant_default_config (some v) mca_id merchant_id
      (st0.configs merchant_id txn) (st0.configs profile_id txn) profile_id
      txn st0).1
    let run2 := update_merchant_default_config (some v) mca_id merchant_id
      (st1.configs merchant_id txn) (st1.configs profile_id txn) profile_id
      txn st1
    (st1.configs merchant_id txn).count choice = 1 ∧
    (st1.configs profile_id txn).count choice = 1 ∧
    run2 = (st1, false, false) := by
  intro choice st1 run2
  have h1 : st1 = persist_default_config
      (persist_default_config st0 merchant_id txn
        (st0.configs merchant_id txn ++ [choice]))
      profile_id txn (st0.configs profile_id txn ++ [choice]) := by
    show (update_merchant_default_config (some v) mca_id merchant_id
      (st0.configs merchant_id txn) (st0.configs profile_id txn) profile_id
      txn st0).1 = _
    rw [update_merchant_default_config_absent v mca_id merchant_id profile_id
      txn _ _ st0 hm hp]
  have hmkey : ¬(merchant_id = profile_id ∧ txn = txn) := by
    intro hc
    exact hkey hc.1
  have hm1 : st1.configs merchant_id txn =
      st0.configs merchant_id txn ++ [choice] := by
    rw [h1, persist_get_other _ _ _ _ _ _ hmkey, persist_get_same]
  have hp1 : st1.configs profile_id txn =
      st0.configs profile_id txn ++ [choice] := by
    rw [h1, persist_get_same]
  refine ⟨?_, ?_, ?_⟩
  · rw [hm1, List.count_append, List.count_eq_zero_of_not_mem hm]
    simp
  · rw [hp1, List.count_append, List.count_eq_zero_of_not_mem hp]
    simp
  · show update_merchant_default_config (some v) mca_id merchant_id
      (st1.configs merchant_id txn) (st1.configs profile_id txn) profile_id
      txn st1 = (st1, false, false)
    apply update_merchant_default_config_present
    · rw [hm1]
      simp
    · rw [hp1]
      simp

/-- C4 witness: a concrete double registration on empty stored lists leaves
one occurrence on each level and a no-op second call. -/
theorem c4_witness :
    let choice : RoutableConnectorChoice :=
      { choice_kind := .FullStruct, connector := ⟨"stripe"⟩,
        merchant_connector_id := some "mca_1" }
    let st1 := (update_merchant_default_config (some ⟨"stripe"⟩) "mca_1" "m1"
      ((ConfigStore.mk (fun _ _ => [])).configs "m1" .Payment)
      ((ConfigStore.mk (fun _ _ => [])).configs "pro_1" .Payment) "pro_1"
      .Payment (ConfigStore.mk (fun _ _ => []))).1
    let run2 := update_merchant_default_config (some ⟨"stripe"⟩) "mca_1" "m1"
      (st1.configs "m1" .Payment) (st1.configs "pro_1" .Payment) "pro_1"
      .Payment st1
    (st1.configs "m1" .Payment).count choice = 1 ∧
    (st1.configs "pro_1" .Payment).count choice = 1 ∧
    run2 = (st1, false, false) :=
  c4_update_merchant_default_config_idempotent ⟨"stripe"⟩ "mca_1" "m1" "pro_1"
    .Payment (ConfigStore.mk (fun _ _ => [])) (by decide) (by simp) (by simp)

/-- C6: a successful `delete_connector` removes exactly the matching merchant
connector account record and leaves every other component of the store —
including the merchant-level and profile-level default routing config
lists — unchanged. -/
theorem c6_delete_connector_preserves_default_routing
    (merchant_id merchant_connector_id : String) (st st2 : Store)
    (response : MerchantConnectorDeleteResponse)
    (h : delete_connector merchant_id merchant_connector_id st =
      (st2, .ok response)) :
    st2.routing_configs = st.routing_configs ∧
    st2.business_profiles = st.business_profiles ∧
    st2.merchant_ids = st.merchant_ids ∧
    st2.merchant_modified_at = st.merchant_modified_at ∧
    st2.key_store_merchants = st.key_store_merchants ∧
    st2.mcas = st.mcas.filter (fun mca =>
      ¬(mca.merchant_id = merchant_id ∧
        mca.merchant_connector_id = merchant_connector_id)) := by
  unfold delete_connector at h
  by_cases h1 : merchant_id ∈ st.key_store_merchants
  · rw [if_pos h1] at h
    by_cases h2 : merchant_id ∈ st.merchant_ids
    · rw [if_pos h2] at h
      rcases hfind : st.mcas.find? (fun mca =>
          mca.merchant_id = merchant_id ∧
          mca.merchant_connector_id = merchant_connector_id) with _ | mca
      · rw [hfind] at h
        rw [Prod.mk.injEq] at h
        exact absurd h.2 (by simp)
      · rw [hfind] at h
        rw [Prod.mk.injEq] at h
        obtain ⟨hst, -⟩ := h
        subst hst
        exact ⟨rfl, rfl, rfl, rfl, rfl, rfl⟩
    · rw [if_neg h2] at h
      rw [Prod.mk.injEq] at h
      exact absurd h.2 (by simp)
  · rw [if_neg h1] at h
    rw [Prod.mk.injEq] at h
    exact absurd h.2 (by simp)

/-- C6 witness: deleting the sole connector account of a concrete store
leaves the routing-config store (and everything but the account list)
untouched. -/
theorem c6_witness :
    (delete_connector "m1" "mca_1"
        ⟨["m1"], ["m1"], fun _ => 0, [],
         [⟨"mca_1", "m1", "pro_1", none⟩], ⟨fun _ _ => []⟩, 0⟩).1.routing_configs =
      (⟨["m1"], ["m1"], fun _ => 0, [],
         [⟨"mca_1", "m1", "pro_1", none⟩], ⟨fun _ _ => []⟩, 0⟩ : Store).routing_configs :=
  (c6_delete_connector_preserves_default_routing "m1" "mca_1"
    ⟨["m1"], ["m1"], fun _ => 0, [],
      [⟨"mca_1", "m1", "pro_1", none⟩], ⟨fun _ _ => []⟩, 0⟩
    (delete_connector "m1" "mca_1"
      ⟨["m1"], ["m1"], fun _ => 0, [],
        [⟨"mca_1", "m1", "pro_1", none⟩], ⟨fun _ _ => []⟩, 0⟩).1
    ⟨"m1", "mca_1", true⟩ rfl).1

/-- Every run of `create_connector` ends in one of three shapes: a failure
returned before the merchant `modified_at` touch (store unchanged), a failure
after the touch (only `merchant_modified_at` changed), or a success. -/
theorem create_connector_result_shape (tables : CapabilityTables)
    (ext : CreateConnectorExternals) (req : MerchantConnectorCreate)
    (merchant_id fresh_mca_id : String) (st : Store) :
    (∃ r, create_connector tables ext req merchant_id fresh_mca_id st = (st, r) ∧
      r.isOk = false) ∨
    (∃ r, create_connector tables ext req merchant_id fresh_mca_id st =
      ({ st with merchant_modified_at := fun m =>
          if m = merchant_id then st.merchant_modified_at m + 1
          else st.merchant_modified_at m }, r) ∧ r.isOk = false) ∨
    (∃ rec st3, create_connector tables ext req merchant_id fresh_mca_id st =
      (st3, .ok rec)) := by
  unfold create_connector
  dsimp only
  repeat' split
  all_goals
    first
      | (left; exact ⟨_, rfl, rfl⟩)
      | (right; left; exact ⟨_, rfl, rfl⟩)
      | (right; right; exact ⟨_, _, rfl⟩)

/-- C2 counterexample: a create request whose status/disabled validation
fails (requested Active with TemporaryAuth) — with every earlier step
succeeding — returns a validation error, yet the merchant account's
`modified_at` has already been updated by then (the touch at
`admin.rs` lines 2666-2678 precedes `create_domain_model_from_request`),
so a persistent write happens before this validation failure is detected.
No connector-account record is created. -/
theorem c2_counterexample :
    let run := create_connector
      ⟨[], [], fun _ => some ⟨"stripe"⟩⟩
      ⟨.ok (), .ok (), .ok (), .ok "pro_1", .ok (), .ok .TemporaryAuth, .ok (),
        .ok ['r'], .ok ()⟩
      ⟨.PaymentProcessor, "stripe", none, some .Active, none, none, none,
        .Payment⟩
      "m1" "mca_1"
      ⟨["m1"], ["m1"], fun _ => 0, [⟨"pro_1", "m1", "default".toList⟩], [],
        ⟨fun _ _ => []⟩, 0⟩
    run.2 = .err (.InvalidRequestData
      "Connector status cannot be active when using TemporaryAuth") ∧
    run.1.merchant_modified_at "m1" = 1 ∧
    run.1.mcas = [] := by
  refine ⟨by decide, by decide, by decide⟩

/-- C2 (amended): on every run of `create_connector` that does not succeed —
in particular on every auth-shape, status/disabled, metadata or bank-account
validation failure — no merchant-connector-account record is created and the
default-routing lists are unchanged (no partial writes of those records);
connector-metadata (Apple Pay) validation failures moreover occur before any
write at all, the store being returned exactly as it was. The merchant
account's `modified_at` touch is the one write that can precede a validation
failure (see the counterexample). -/
theorem c2_validation_failures_create_no_records (tables : CapabilityTables)
    (ext : CreateConnectorExternals) (req : MerchantConnectorCreate)
    (merchant_id fresh_mca_id : String) (st : Store) :
    ((create_connector tables ext req merchant_id fresh_mca_id st).2.isOk =
        false →
      (create_connector tables ext req merchant_id fresh_mca_id st).1.mcas =
        st.mcas ∧
      (create_connector tables ext req merchant_id fresh_mca_id
        st).1.routing_configs = st.routing_configs ∧
      (create_connector tables ext req merchant_id fresh_mca_id
        st).1.business_profiles = st.business_profiles ∧
      (create_connector tables ext req merchant_id fresh_mca_id
        st).1.key_store_merchants = st.key_store_merchants ∧
      (create_connector tables ext req merchant_id fresh_mca_id
        st).1.merchant_ids = st.merchant_ids ∧
      (create_connector tables ext req merchant_id fresh_mca_id
        st).1.profile_id_counter = st.profile_id_counter) ∧
    (∀ e, ext.dummy_connector_check = .ok () →
      merchant_id ∈ st.key_store_merchants →
      ext.apple_pay_metadata_check = .error e →
      create_connector tables ext req merchant_id fresh_mca_id st =
        (st, .err e)) := by
  constructor
  · intro hnotok
    rcases create_connector_result_shape tables ext req merchant_id
        fresh_mca_id st with ⟨r, heq, -⟩ | ⟨r, heq, -⟩ | ⟨rec, st3, heq⟩
    · rw [heq]
      exact ⟨rfl, rfl, rfl, rfl, rfl, rfl⟩
    · rw [heq]
      exact ⟨rfl, rfl, rfl, rfl, rfl, rfl⟩
    · rw [heq] at hnotok
      exact absurd hnotok (by simp [RunResult.isOk])
  · intro e hdummy hks happle
    unfold create_connector
    rw [hdummy, if_pos hks, happle]

/-- C2 witness: on the concrete failing run of the counterexample, the
amended theorem yields that no connector-account record was created. -/
theorem c2_witness :
    (create_connector
      ⟨[], [], fun _ => some ⟨"stripe"⟩⟩
      ⟨.ok (), .ok (), .ok (), .ok "pro_1", .ok (), .ok .TemporaryAuth, .ok (),
        .ok ['r'], .ok ()⟩
      ⟨.PaymentProcessor, "stripe", none, some .Active, none, none, none,
        .Payment⟩
      "m1" "mca_1"
      ⟨["m1"], ["m1"], fun _ => 0, [⟨"pro_1", "m1", "default".toList⟩], [],
        ⟨fun _ _ => []⟩, 0⟩).1.mcas = [] :=
  ((c2_validation_failures_create_no_records
    ⟨[], [], fun _ => some ⟨"stripe"⟩⟩
    ⟨.ok (), .ok (), .ok (), .ok "pro_1", .ok (), .ok .TemporaryAuth, .ok (),
      .ok ['r'], .ok ()⟩
    ⟨.PaymentProcessor, "stripe", none, some .Active, none, none, none,
      .Payment⟩
    "m1" "mca_1"
    ⟨["m1"], ["m1"], fun _ => 0, [⟨"pro_1", "m1", "default".toList⟩], [],
      ⟨fun _ _ => []⟩, 0⟩).1 (by decide)).1

/-- Distinct primary-business-details entries produce distinct profile names
(the country code occupies exactly the first two characters). -/
theorem profile_name_of_business_details_injective
    (p1 p2 : PrimaryBusinessDetails)
    (h : profile_name_of_business_details p1 =
      profile_name_of_business_details p2) : p1 = p2 := by
  obtain ⟨⟨a1, a2⟩, b1⟩ := p1
  obtain ⟨⟨a3, a4⟩, b2⟩ := p2
  simp only [profile_name_of_business_details, List.cons.injEq, true_and] at h
  obtain ⟨h1, h2, h3⟩ := h
  subst h1
  subst h2
  subst h3
  rfl

/-- An insert that hits no `(merchant_id, profile_name)` conflict appends the
new record and bumps the id counter. -/
theorem create_and_insert_business_profile_no_conflict
    (request : BusinessProfileCreate) (merchant_id : String) (st : Store)
    (h : (st.business_profiles.any fun p =>
      p.merchant_id = merchant_id ∧
      p.profile_name = request.profile_name.getD "default".toList) = false) :
    create_and_insert_business_profile request merchant_id st =
      ({ st with
          profile_id_counter := st.profile_id_counter + 1
          business_profiles := st.business_profiles ++
            [⟨"pro_" ++ toString st.profile_id_counter, merchant_id,
              request.profile_name.getD "default".toList⟩] },
       .ok ⟨"pro_" ++ toString st.profile_id_counter, merchant_id,
         request.profile_name.getD "default".toList⟩) := by
  unfold create_and_insert_business_profile
  dsimp only
  rw [if_neg (by rw [h]; simp)]

/-- C7: starting from a store with no profiles for the merchant and a
merchant account whose `default_profile` is `None` (its state at creation),
creating the business profiles with no — or empty — primary business details
inserts exactly one profile named `"default"` and returns its id as the new
`default_profile`; creating them from two distinct primary-business-details
entries inserts exactly two profiles (named from the entries) and leaves
`default_profile` unset. -/
theorem c7_business_profile_creation_default_profile
    (merchant_id : String) (st : Store) (p1 p2 : PrimaryBusinessDetails)
    (hclean : ∀ p ∈ st.business_profiles, p.merchant_id ≠ merchant_id)
    (hdistinct : p1 ≠ p2) :
    (∀ input : Option (List PrimaryBusinessDetails),
      input = none ∨ input = some [] →
      (create_business_profiles (CreateBusinessProfile.new input) merchant_id
          none st).1.business_profiles =
        st.business_profiles ++
          [⟨"pro_" ++ toString st.profile_id_counter, merchant_id,
            "default".toList⟩] ∧
      (create_business_profiles (CreateBusinessProfile.new input) merchant_id
          none st).2 =
        .ok (some ("pro_" ++ toString st.profile_id_counter))) ∧
    ((create_business_profiles
        (CreateBusinessProfile.new (some [p1, p2])) merchant_id none
        st).1.business_profiles =
      st.business_profiles ++
        [⟨"pro_" ++ toString st.profile_id_counter, merchant_id,
          profile_name_of_business_details p1⟩,
         ⟨"pro_" ++ toString (st.profile_id_counter + 1), merchant_id,
          profile_name_of_business_details p2⟩] ∧
     (create_business_profiles
        (CreateBusinessProfile.new (some [p1, p2])) merchant_id none
        st).2 = .ok none) := by
  have hany : ∀ nm, (st.business_profiles.any fun p =>
      p.merchant_id = merchant_id ∧ p.profile_name = nm) = false := by
    intro nm
    rw [List.any_eq_false]
    intro p hp
    simp only [decide_eq_true_eq, not_and]
    intro hm
    exact absurd hm (hclean p hp)
  constructor
  · intro input hin
    have hdef : CreateBusinessProfile.new input =
        .CreateDefaultBusinessProfile := by
      rcases hin with h | h <;> subst h <;> simp [CreateBusinessProfile.new]
    rw [hdef]
    show ((create_business_profiles .CreateDefaultBusinessProfile merchant_id
        none st).1.business_profiles = _) ∧ _
    unfold create_business_profiles
    rw [create_and_insert_business_profile_no_conflict ⟨none⟩ merchant_id st
      (hany _)]
    exact ⟨rfl, rfl⟩
  · have hnew : CreateBusinessProfile.new (some [p1, p2]) =
        .CreateFromPrimaryBusinessDetails [p1, p2] := by
      simp [CreateBusinessProfile.new]
    rw [hnew]
    have hname : profile_name_of_business_details p1 ≠
        profile_name_of_business_details p2 := by
      intro hc
      exact hdistinct (profile_name_of_business_details_injective p1 p2 hc)
    have hstep1 := create_and_insert_business_profile_no_conflict
      ⟨some (profile_name_of_business_details p1)⟩ merchant_id st (hany _)
    have hany1 : ((st.business_profiles ++
        [(⟨"pro_" ++ toString st.profile_id_counter, merchant_id,
          profile_name_of_business_details p1⟩ : BusinessProfileRecord)]).any
        fun p =>
        p.merchant_id = merchant_id ∧
        p.profile_name = profile_name_of_business_details p2) = false := by
      rw [List.any_append, hany _]
      simp [hname]
    have hstep2 := create_and_insert_business_profile_no_conflict
      ⟨some (profile_name_of_business_details p2)⟩ merchant_id
      { st with
          profile_id_counter := st.profile_id_counter + 1
          business_profiles := st.business_profiles ++
            [⟨"pro_" ++ toString st.profile_id_counter, merchant_id,
              profile_name_of_business_details p1⟩] }
      hany1
    constructor
    · simp only [create_business_profiles,
        create_business_profiles_for_each_business_details, hstep1, hstep2,
        Option.getD, List.append_assoc, List.cons_append, List.nil_append,
        List.length_cons, List.length_nil]
      simp
    · simp only [create_business_profiles,
        create_business_profiles_for_each_business_details, hstep1, hstep2,
        Option.getD, List.length_cons, List.length_nil]
      simp

/-- C7 witness: with a fresh empty store, the no-details path creates the
`"default"` profile and sets it as default, and the two-entries path leaves
`default_profile` unset. -/
theorem c7_witness :
    (create_business_profiles (CreateBusinessProfile.new none) "m1" none
        ⟨["m1"], ["m1"], fun _ => 0, [], [], ⟨fun _ _ => []⟩, 0⟩).2 =
      .ok (some ("pro_" ++ toString 0)) ∧
    (create_business_profiles
        (CreateBusinessProfile.new
          (some [⟨('U', 'S'), "food".toList⟩, ⟨('G', 'B'), "retail".toList⟩]))
        "m1" none
        ⟨["m1"], ["m1"], fun _ => 0, [], [], ⟨fun _ _ => []⟩, 0⟩).2 =
      .ok none :=
  ⟨((c7_business_profile_creation_default_profile "m1"
      ⟨["m1"], ["m1"], fun _ => 0, [], [], ⟨fun _ _ => []⟩, 0⟩
      ⟨('U', 'S'), "food".toList⟩ ⟨('G', 'B'), "retail".toList⟩
      (by simp) (by decide)).1 none (Or.inl rfl)).2,
   (c7_business_profile_creation_default_profile "m1"
      ⟨["m1"], ["m1"], fun _ => 0, [], [], ⟨fun _ _ => []⟩, 0⟩
      ⟨('U', 'S'), "food".toList⟩ ⟨('G', 'B'), "retail".toList⟩
      (by simp) (by decide)).2.2⟩

end AdminCore
